import Mathlib

/-!
Shallow embedding of the authentication core of the Time-Capsule service:
the credential verifier with its account-lockout policy
(`src/server/src/models/User.js`, shipped here as `src/unnamed/part_000`,
and `loginUser` in `src/server/src/controllers/users.js`) and the
two-factor-authentication manager
(`generate2FASecret`, `verify2FAToken`, `disable2FA`, `verify2FALogin` in
`src/server/src/utils/sanitize.js`).

External collaborators (bcrypt, speakeasy TOTP, JWT signing, the random
stream behind `Math.random().toString(36).substring(2, 10)`) are passed in
as function parameters, mirroring the interfaces the source calls.
Timestamps are `Nat` milliseconds, as returned by `Date.now()`.
-/

namespace TimeCapsule

/-- One element of the `twoFactorBackupCodes` array of the User schema:
`{ code: String, used: Boolean }` where `code` holds a bcrypt hash. -/
structure BackupCodeEntry where
  code : String
  used : Bool
deriving Repr, DecidableEq

/-- The User document fields the authentication core reads and writes
(`src/unnamed/part_000`, lines 5–69). `password` holds the bcrypt hash. -/
structure User where
  name : String
  email : String
  password : String
  role : String
  twoFactorEnabled : Bool
  twoFactorSecret : Option String
  twoFactorBackupCodes : List BackupCodeEntry
  loginAttempts : Nat
  accountLocked : Bool
  lockUntil : Option Nat
  lastLogin : Option Nat
deriving Repr, DecidableEq

/-- Embeds `UserSchema.methods.isLocked` (part_000 lines 103–106):
`!!(this.lockUntil && this.lockUntil > Date.now())`.  A missing
`lockUntil` is falsy; a stored Date object is always truthy. -/
def isLocked (u : User) (now : Nat) : Bool :=
  match u.lockUntil with
  | some t => decide (t > now)
  | none => false

/-- Embeds `UserSchema.methods.incrementLoginAttempts` (part_000 lines 109–133).
If a previous lock has expired (`this.lockUntil && this.lockUntil <
Date.now()`), the update sets `loginAttempts = 1`, `lockUntil = null`,
`accountLocked = false`.  Otherwise it increments `loginAttempts`, and when
`this.loginAttempts + 1 >= 5` additionally sets
`lockUntil = Date.now() + 1*60*60*1000` and `accountLocked = true`. -/
def incrementLoginAttempts (u : User) (now : Nat) : User :=
  if (match u.lockUntil with | some t => decide (t < now) | none => false) then
    { u with loginAttempts := 1, lockUntil := none, accountLocked := false }
  else if u.loginAttempts + 1 ≥ 5 then
    { u with loginAttempts := u.loginAttempts + 1,
             lockUntil := some (now + 1 * 60 * 60 * 1000),
             accountLocked := true }
  else
    { u with loginAttempts := u.loginAttempts + 1 }

/-- Embeds `UserSchema.methods.resetLoginAttempts` (part_000 lines 136–145):
sets `loginAttempts = 0`, `lockUntil = null`, `accountLocked = false`,
`lastLogin = Date.now()`. -/
def resetLoginAttempts (u : User) (now : Nat) : User :=
  { u with loginAttempts := 0, lockUntil := none, accountLocked := false,
           lastLogin := some now }

/-- JavaScript truthiness of an optional string request field: `undefined`
and the empty string are falsy, every other string is truthy. -/
def strTruthy : Option String → Bool
  | none => false
  | some s => !s.isEmpty

/-! ## `loginUser` (src/server/src/controllers/users.js, lines 56–134) -/

/-- The JSON body `loginUser` sends, together with the HTTP status code.
`message` is absent on the plain-login success response; `token` is
present only on that response; `twoFactorRequired` is present only on the
2FA-pending response. -/
structure LoginResult where
  status : Nat
  success : Bool
  message : Option String
  twoFactorRequired : Bool
  token : Option String
deriving Repr, DecidableEq

/-- Embeds `loginUser`.  `pwCompare plaintext hash` stands for
`bcrypt.compare` as used by `user.matchPassword`; `jwtSign` stands for
`user.getSignedJwtToken`; `userOpt` is the result of
`User.findOne({email}).select(PLUS password)`.  Returns the response and
the user's persisted state after the call (`none` when no user exists). -/
def loginUser (pwCompare : String → String → Bool) (jwtSign : User → String)
    (userOpt : Option User) (password : String) (now : Nat) :
    LoginResult × Option User :=
  match userOpt with
  | none =>
      ({ status := 401, success := false, message := some "Invalid credentials",
         twoFactorRequired := false, token := none }, none)
  | some user =>
      if isLocked user now then
        ({ status := 401, success := false,
           message := some "Account is locked due to too many failed attempts. Try again later.",
           twoFactorRequired := false, token := none }, some user)
      else if ¬ pwCompare password user.password then
        ({ status := 401, success := false, message := some "Invalid credentials",
           twoFactorRequired := false, token := none },
         some (incrementLoginAttempts user now))
      else if user.twoFactorEnabled then
        ({ status := 200, success := true,
           message := some "Please complete two-factor authentication",
           twoFactorRequired := true, token := none },
         some (resetLoginAttempts user now))
      else
        ({ status := 200, success := true, message := none,
           twoFactorRequired := false, token := some (jwtSign user) },
         some (resetLoginAttempts user now))

/-! ## Second-factor manager (src/server/src/utils/sanitize.js) -/

/-- Response of `generate2FASecret` (lines 83–118): status, success flag
and the `data` fields `qrCode`, `secret`, `otpauthUrl`. -/
structure Gen2FAResult where
  status : Nat
  success : Bool
  qrCode : Option String
  secret : Option String
  otpauthUrl : Option String
deriving Repr, DecidableEq

/-- Embeds `generate2FASecret` (lines 83–118).  The handler reads no deployment
configuration: the `production` parameter models the deployment mode, and
the body unconditionally carries `secret: secret.base32` (line 107), with
only the comment at line 107 warning that it is for development only and
must not be sent in production.  `secretBase32`, `qrCodeUrl` and `otpauthUrl` are
the values produced by the speakeasy and QRCode collaborators; the second
component is the session slot `req.session.twoFactorSecret` after the
call. -/
def generate2FASecret (production : Bool) (secretBase32 qrCodeUrl otpauthUrl : String)
    (session : Option String) : Gen2FAResult × Option String :=
  ({ status := 200, success := true, qrCode := some qrCodeUrl,
     secret := some secretBase32, otpauthUrl := some otpauthUrl },
   some secretBase32)

/-- Response of `verify2FAToken` (lines 123–202): status, success flag,
message, and on success the `backupCodes` array shown to the user. -/
structure Verify2FATokenResult where
  status : Nat
  success : Bool
  message : Option String
  backupCodes : Option (List String)
deriving Repr, DecidableEq

/-- Embeds `verify2FAToken` (lines 123–202).  `totpVerify secret token window`
stands for `speakeasy.totp.verify` with base32 encoding; the handler
passes `window: 1`.  `bcryptHash` stands for `bcrypt.hash(code, 10)`.
`rand i` is the i-th successive draw of
`Math.random().toString(36).substring(2, 10)`: the loop at lines 159–167
hashes and stores draws 0..9 with `used: false`, and the `map` at lines
181–183 then generates FRESH draws 10..19 as the `plainBackupCodes` sent
to the caller (its callback ignores its element argument).  Returns the
response, the user's persisted state, and the session slot after the
call. -/
def verify2FAToken (totpVerify : String → String → Nat → Bool)
    (bcryptHash : String → String) (rand : Nat → String)
    (session : Option String) (token : Option String) (user : User) :
    Verify2FATokenResult × User × Option String :=
  if ¬ strTruthy token then
    ({ status := 400, success := false, message := some "Please provide a token",
       backupCodes := none }, user, session)
  else
    match session with
    | none =>
        ({ status := 400, success := false,
           message := some "No 2FA secret found. Please generate a new secret first.",
           backupCodes := none }, user, session)
    | some secret =>
        if ¬ totpVerify secret (token.getD "") 1 then
          ({ status := 400, success := false,
             message := some "Invalid token, verification failed",
             backupCodes := none }, user, session)
        else
          let storedCodes := (List.range 10).map fun i =>
            ({ code := bcryptHash (rand i), used := false } : BackupCodeEntry)
          let plainBackupCodes := (List.range 10).map fun i => rand (10 + i)
          ({ status := 200, success := true,
             message := some "2FA has been enabled",
             backupCodes := some plainBackupCodes },
           { user with twoFactorSecret := some secret, twoFactorEnabled := true,
                       twoFactorBackupCodes := storedCodes },
           none)

/-- Response of `disable2FA` (lines 207–266). -/
structure Disable2FAResult where
  status : Nat
  success : Bool
  message : Option String
deriving Repr, DecidableEq

/-- Embeds `disable2FA` (lines 207–266).  Requires `token` or `password` (line
211, JS truthiness).  If a token is supplied it is checked first with
`speakeasy.totp.verify` against `user.twoFactorSecret` with `window: 1`;
when the user has no stored secret that call throws inside speakeasy
(base32-decoding `undefined`) and the catch-all returns the 500 response
of lines 259–265.  If a password is supplied and the token did not verify
(line 234), `user.matchPassword` is tried.  When neither proof validates
the handler returns 400 and leaves the record untouched; on success it
clears `twoFactorEnabled`, `twoFactorSecret` and `twoFactorBackupCodes`
and saves. -/
def disable2FA (totpVerify : String → String → Nat → Bool)
    (pwCompare : String → String → Bool)
    (token password : Option String) (user : User) : Disable2FAResult × User :=
  if ¬ strTruthy token ∧ ¬ strTruthy password then
    ({ status := 400, success := false,
       message := some "Please provide either a valid 2FA token or your password" }, user)
  else if strTruthy token ∧ user.twoFactorSecret = none then
    ({ status := 500, success := false,
       message := some "Error disabling 2FA" }, user)
  else
    let verifiedByToken :=
      strTruthy token && totpVerify (user.twoFactorSecret.getD "") (token.getD "") 1
    let isVerified :=
      if strTruthy password && !verifiedByToken then
        pwCompare (password.getD "") user.password
      else verifiedByToken
    if ¬ isVerified then
      ({ status := 400, success := false,
         message := some "Verification failed. Please provide either a valid 2FA token or your correct password" },
       user)
    else
      ({ status := 200, success := true,
         message := some "2FA has been disabled" },
       { user with twoFactorEnabled := false, twoFactorSecret := none,
                   twoFactorBackupCodes := [] })

/-- Response of `verify2FALogin` (lines 271–356). -/
structure Verify2FALoginResult where
  status : Nat
  success : Bool
  message : Option String
  token : Option String
deriving Repr, DecidableEq

/-- Embeds `Array.prototype.findIndex` over a list: the index of the
first element at which the callback value is truthy, `none` standing for
the -1 of JavaScript. -/
def findIndexList (p : α → Bool) : List α → Option Nat
  | [] => none
  | a :: l => if p a then some 0 else (findIndexList p l).map (· + 1)

/-- Truthiness of the value the `findIndex` callback at lines 312–314
returns.  The callback is an `async` function, so invoking it yields a
Promise object — `Array.prototype.findIndex` does not await it, and any
object is truthy in JavaScript.  The bcrypt comparison and the
`!code.used` test run inside the promise and their result is discarded:
the predicate is therefore truthy at every element. -/
def asyncCallbackPromiseTruthy (entry : BackupCodeEntry) : Bool := true

/-- Embeds the assignment at line 318:
set the `used` flag of the entry at `i`, leaving the list unchanged when
`i` is out of range. -/
def markUsed (codes : List BackupCodeEntry) (i : Nat) : List BackupCodeEntry :=
  match codes.get? i with
  | some e => codes.set i { e with used := true }
  | none => codes

/-- Embeds `verify2FALogin` (lines 271–356).  `bcryptCompare` is the
`bcrypt.compare` collaborator the `findIndex` callback awaits; because
that callback is async (see `asyncCallbackPromiseTruthy`) its result
never influences the chosen index.  `jwtSign` stands for
`user.getSignedJwtToken`, called on the in-memory document after the
backup-code save.  When a token is supplied and the user has no stored
secret, speakeasy throws and the catch-all returns the 500 response of
lines 349–355.  Returns the response and the user's persisted state
(`none` when no user was found). -/
def verify2FALogin (totpVerify : String → String → Nat → Bool)
    (bcryptCompare : String → String → Bool) (jwtSign : User → String)
    (userId authToken backupCode : Option String)
    (userOpt : Option User) (now : Nat) :
    Verify2FALoginResult × Option User :=
  if ¬ strTruthy userId ∨ (¬ strTruthy authToken ∧ ¬ strTruthy backupCode) then
    ({ status := 400, success := false,
       message := some "Please provide userId and either a token or backup code",
       token := none }, userOpt)
  else
    match userOpt with
    | none =>
        ({ status := 404, success := false, message := some "User not found",
           token := none }, none)
    | some user =>
        if ¬ user.twoFactorEnabled then
          ({ status := 400, success := false,
             message := some "2FA is not enabled for this user", token := none },
           some user)
        else if strTruthy authToken then
          match user.twoFactorSecret with
          | none =>
              ({ status := 500, success := false,
                 message := some "Error verifying 2FA", token := none }, some user)
          | some secret =>
              if totpVerify secret (authToken.getD "") 1 then
                ({ status := 200, success := true, message := none,
                   token := some (jwtSign user) },
                 some (resetLoginAttempts user now))
              else
                ({ status := 400, success := false,
                   message := some "Invalid token or backup code", token := none },
                 some user)
        else
          match findIndexList asyncCallbackPromiseTruthy user.twoFactorBackupCodes with
          | none =>
              ({ status := 400, success := false,
                 message := some "Invalid token or backup code", token := none },
               some user)
          | some backupCodeIndex =>
              let user' := { user with
                twoFactorBackupCodes := markUsed user.twoFactorBackupCodes backupCodeIndex }
              ({ status := 200, success := true, message := none,
                 token := some (jwtSign user') },
               some (resetLoginAttempts user' now))

/-! ## Credential-verifier lockout transition system

The persisted lockout fields of a User change only through
`incrementLoginAttempts` (called by `loginUser` after the `isLocked`
check of users.js line 72 has passed) and `resetLoginAttempts` (called on
any successful authentication, by `loginUser` and by `verify2FALogin`,
the latter without a lock check). -/

/-- One persisted lockout-state change of the credential verifier. -/
inductive CVStep : User → User → Prop
  | fail (u : User) (now : Nat) (hlk : isLocked u now = false) :
      CVStep u (incrementLoginAttempts u now)
  | success (u : User) (now : Nat) : CVStep u (resetLoginAttempts u now)

/-- Lockout states reachable from a freshly created user.  The schema
defaults (part_000 lines 50–60) are `loginAttempts = 0`,
`accountLocked = false` and no `lockUntil`. -/
inductive CVReachable : User → Prop
  | init (u : User) (h0 : u.loginAttempts = 0) (hl : u.lockUntil = none)
      (ha : u.accountLocked = false) : CVReachable u
  | step (u v : User) (hr : CVReachable u) (hs : CVStep u v) : CVReachable v

/-! ## Concrete fixtures for witnesses and counterexamples -/

/-- A user carrying the schema defaults for every authentication field. -/
def freshUser : User :=
  { name := "Alice", email := "alice@example.com", password := "pwhash",
    role := "user", twoFactorEnabled := false, twoFactorSecret := none,
    twoFactorBackupCodes := [], loginAttempts := 0, accountLocked := false,
    lockUntil := none, lastLogin := none }

/-- A user four failed attempts in, not locked. -/
def user4 : User := { freshUser with loginAttempts := 4 }

/-- A user locked until timestamp 1000. -/
def lockedUser : User :=
  { freshUser with loginAttempts := 5, accountLocked := true,
                   lockUntil := some 1000 }

/-- Stand-in bcrypt hash for concrete evaluations: prefix the plaintext. -/
def demoHash (p : String) : String := "h$" ++ p

/-- Stand-in bcrypt compare matching exactly the `demoHash` of the
plaintext. -/
def demoCompare (p h : String) : Bool := h == demoHash p

/-- Stand-in random stream for concrete evaluations. -/
def demoRand (i : Nat) : String := "r" ++ toString i

/-- An enabled-2FA user holding one unused backup code, the bcrypt hash
of the plaintext code AB12CD34. -/
def backupUser : User :=
  { freshUser with twoFactorEnabled := true, twoFactorSecret := some "SECRET",
                   twoFactorBackupCodes := [{ code := demoHash "AB12CD34", used := false }] }

/-- An enabled-2FA user whose single stored backup-code entry is already
marked used. -/
def usedBackupUser : User :=
  { backupUser with
    twoFactorBackupCodes := [{ code := demoHash "AB12CD34", used := true }] }

/-- An enabled-2FA user currently locked until timestamp 5000. -/
def lockedBackupUser : User :=
  { backupUser with lockUntil := some 5000, accountLocked := true,
                    loginAttempts := 5 }

/-! ## Theorems -/

/-- Inductive invariant of the lockout state machine: a stored `lockUntil`
implies the attempt counter has reached the threshold of 5, and a set
`accountLocked` flag implies a stored `lockUntil`. -/
theorem cv_invariant (u : User) (hr : CVReachable u) :
    (∀ t, u.lockUntil = some t → 5 ≤ u.loginAttempts) ∧
    (u.accountLocked = true → u.lockUntil ≠ none) := by
  induction hr with
  | init u h0 hl ha =>
      refine ⟨fun t ht => ?_, fun hac => ?_⟩
      · rw [hl] at ht; cases ht
      · rw [ha] at hac; cases hac
  | step u v hr hs ih =>
      cases hs with
      | success now =>
          refine ⟨fun t ht => ?_, fun hac => ?_⟩
          · simp [resetLoginAttempts] at ht
          · simp [resetLoginAttempts] at hac
      | fail now hlk =>
          unfold incrementLoginAttempts
          split
          · refine ⟨fun t ht => ?_, fun hac => ?_⟩
            · simp at ht
            · simp at hac
          · split
            · next hge =>
                refine ⟨fun t _ => ?_, fun _ => ?_⟩
                · simpa using hge
                · simp
            · next hlt =>
                refine ⟨fun t ht => ?_, fun hac => ?_⟩
                · have ht' : u.lockUntil = some t := ht
                  have h5 := ih.1 t ht'
                  show 5 ≤ u.loginAttempts + 1
                  omega
                · have hac' : u.accountLocked = true := hac
                  show u.lockUntil ≠ none
                  exact ih.2 hac'

/-- C4: for every (reachable) user with `loginAttempts = 4` and no
unexpired lock, a failed password attempt (`incrementLoginAttempts`) sets
`loginAttempts` to 5, `accountLocked` to true and `lockUntil` to
now + 1 hour; and in general the post-state of a failed attempt has
`accountLocked` set exactly when its attempt count has reached 5. -/
theorem lock_on_fifth_failed_attempt (u : User) (now : Nat)
    (hr : CVReachable u) (h4 : u.loginAttempts = 4)
    (hnl : ∀ t, u.lockUntil = some t → t ≤ now) :
    (incrementLoginAttempts u now).loginAttempts = 5 ∧
    (incrementLoginAttempts u now).accountLocked = true ∧
    (incrementLoginAttempts u now).lockUntil = some (now + 1 * 60 * 60 * 1000) ∧
    (∀ (v : User) (m : Nat), CVReachable v →
      ((incrementLoginAttempts v m).accountLocked = true ↔
        5 ≤ (incrementLoginAttempts v m).loginAttempts)) := by
  have hnone : u.lockUntil = none := by
    cases hlu : u.lockUntil with
    | none => rfl
    | some t =>
        have := (cv_invariant u hr).1 t hlu
        omega
  refine ⟨?_, ?_, ?_, ?_⟩
  · simp [incrementLoginAttempts, hnone, h4]
  · simp [incrementLoginAttempts, hnone, h4]
  · simp [incrementLoginAttempts, hnone, h4]
  · intro v m hrv
    have ihv := cv_invariant v hrv
    unfold incrementLoginAttempts
    split
    · simp
    · split
      · next hge => simpa using hge
      · next hlt =>
          have hacf : v.accountLocked = false := by
            cases hac : v.accountLocked with
            | false => rfl
            | true =>
                have h2 := ihv.2 hac
                cases hlu : v.lockUntil with
                | none => exact absurd hlu h2
                | some t =>
                    have h5 := ihv.1 t hlu
                    omega
          show v.accountLocked = true ↔ 5 ≤ v.loginAttempts + 1
          rw [hacf]
          exact iff_of_false (by simp) (by omega)

/-- Witness for C4 at the concrete reachable user `user4` (four failed
attempts from a fresh account) at time 0. -/
theorem lock_on_fifth_failed_attempt_witness :
    (incrementLoginAttempts user4 0).loginAttempts = 5 ∧
    (incrementLoginAttempts user4 0).accountLocked = true ∧
    (incrementLoginAttempts user4 0).lockUntil = some (0 + 1 * 60 * 60 * 1000) ∧
    (∀ (v : User) (m : Nat), CVReachable v →
      ((incrementLoginAttempts v m).accountLocked = true ↔
        5 ≤ (incrementLoginAttempts v m).loginAttempts)) := by
  have h0 : CVReachable freshUser := CVReachable.init freshUser rfl rfl rfl
  have h1 := CVReachable.step _ _ h0 (CVStep.fail freshUser 0 (by decide))
  have h2 := CVReachable.step _ _ h1
    (CVStep.fail (incrementLoginAttempts freshUser 0) 0 (by decide))
  have h3 := CVReachable.step _ _ h2
    (CVStep.fail (incrementLoginAttempts (incrementLoginAttempts freshUser 0) 0) 0
      (by decide))
  have h4 := CVReachable.step _ _ h3
    (CVStep.fail (incrementLoginAttempts (incrementLoginAttempts
      (incrementLoginAttempts freshUser 0) 0) 0) 0 (by decide))
  have heq : incrementLoginAttempts (incrementLoginAttempts (incrementLoginAttempts
      (incrementLoginAttempts freshUser 0) 0) 0) 0 = user4 := by decide
  rw [heq] at h4
  exact lock_on_fifth_failed_attempt user4 0 h4 (by decide)
    (by intro t ht; simp [user4, freshUser] at ht)

/-- C5: for every user whose `lockUntil` has elapsed, the next failed
attempt resets `loginAttempts` to exactly 1, clears `lockUntil` and
`accountLocked`, and does not re-lock the account. -/
theorem expired_lock_resets_to_one (u : User) (now t : Nat)
    (hl : u.lockUntil = some t) (helapsed : t < now) :
    (incrementLoginAttempts u now).loginAttempts = 1 ∧
    (incrementLoginAttempts u now).lockUntil = none ∧
    (incrementLoginAttempts u now).accountLocked = false := by
  simp [incrementLoginAttempts, hl, helapsed]

/-- Witness for C5 at `lockedUser` (locked until time 1000) at time 4000. -/
theorem expired_lock_resets_to_one_witness :
    lockedUser.lockUntil = some 1000 ∧ (1000 : Nat) < 4000 ∧
    (incrementLoginAttempts lockedUser 4000).loginAttempts = 1 ∧
    (incrementLoginAttempts lockedUser 4000).lockUntil = none ∧
    (incrementLoginAttempts lockedUser 4000).accountLocked = false :=
  ⟨by decide, by decide,
   expired_lock_resets_to_one lockedUser 4000 1000 (by decide) (by decide)⟩

/-- C1 (code bug): a backup code is NOT single-use under sequential
calls.  With one stored entry hashing the code AB12CD34, the first
`verify2FALogin` call reports success and marks the entry used; the
second call with the very same code reports success again instead of
failing, because the async `findIndex` callback at lines 312–314 returns
a Promise, which is truthy, so index 0 is chosen regardless of the
bcrypt comparison and of the `used` flag. -/
theorem backup_code_double_spend_bug :
    (verify2FALogin (fun _ _ _ => false) demoCompare (fun _ => "jwt")
      (some "uid") none (some "AB12CD34") (some backupUser) 0).1.success = true ∧
    (verify2FALogin (fun _ _ _ => false) demoCompare (fun _ => "jwt")
      (some "uid") none (some "AB12CD34") (some backupUser) 0).2 =
      some { backupUser with
             twoFactorBackupCodes := [{ code := demoHash "AB12CD34", used := true }],
             lastLogin := some 0 } ∧
    (verify2FALogin (fun _ _ _ => false) demoCompare (fun _ => "jwt")
      (some "uid") none (some "AB12CD34")
      ((verify2FALogin (fun _ _ _ => false) demoCompare (fun _ => "jwt")
        (some "uid") none (some "AB12CD34") (some backupUser) 0).2) 0).1.success
      = true := by decide

/-- C2 (code bug): the ten plaintext codes `verify2FAToken` returns are
FRESH random draws (indices 10–19 of the random stream, lines 181–183),
unrelated to the draws 0–9 whose hashes were stored (lines 159–167):
with all twenty draws pairwise distinct, no returned plaintext compares
successfully against any stored hashed entry. -/
theorem returned_backup_codes_unrelated_to_stored :
    (verify2FAToken (fun _ _ _ => true) demoHash demoRand
      (some "SECRET") (some "123456") freshUser).1.success = true ∧
    (verify2FAToken (fun _ _ _ => true) demoHash demoRand
      (some "SECRET") (some "123456") freshUser).1.backupCodes =
      some ["r10", "r11", "r12", "r13", "r14", "r15", "r16", "r17", "r18", "r19"] ∧
    (verify2FAToken (fun _ _ _ => true) demoHash demoRand
      (some "SECRET") (some "123456") freshUser).2.1.twoFactorBackupCodes.map
        (fun e => e.code) =
      ["h$r0", "h$r1", "h$r2", "h$r3", "h$r4", "h$r5", "h$r6", "h$r7", "h$r8", "h$r9"] ∧
    ((verify2FAToken (fun _ _ _ => true) demoHash demoRand
      (some "SECRET") (some "123456") freshUser).1.backupCodes.getD []).all
      (fun p =>
        ((verify2FAToken (fun _ _ _ => true) demoHash demoRand
          (some "SECRET") (some "123456") freshUser).2.1.twoFactorBackupCodes.all
          (fun e => !demoCompare p e.code))) = true := by decide

/-- C3 counterexample: the HTTP-facing failure message for a locked
account differs from the one for a wrong password, so the claim that the
two are identical is false at these concrete inputs. -/
theorem locked_message_differs_from_wrong_password :
    (loginUser (fun _ _ => false) (fun _ => "jwt") (some lockedUser) "pw" 0).1.message ≠
    (loginUser (fun _ _ => false) (fun _ => "jwt") (some freshUser) "pw" 0).1.message := by
  decide

/-- C3 amended: the locked-account failure and the wrong-password failure
both return HTTP 401 with success=false, but with distinct fixed
messages, so a caller CAN distinguish `AccountLocked` from
`InvalidCredentials` from the response body. -/
theorem locked_and_wrong_password_distinguishable
    (pc : String → String → Bool) (js : User → String)
    (u v : User) (pw pw2 : String) (now now2 : Nat)
    (hl : isLocked u now = true)
    (hnl : isLocked v now2 = false) (hw : pc pw2 v.password = false) :
    (loginUser pc js (some u) pw now).1.status = 401 ∧
    (loginUser pc js (some u) pw now).1.success = false ∧
    (loginUser pc js (some u) pw now).1.message =
      some "Account is locked due to too many failed attempts. Try again later." ∧
    (loginUser pc js (some v) pw2 now2).1.status = 401 ∧
    (loginUser pc js (some v) pw2 now2).1.success = false ∧
    (loginUser pc js (some v) pw2 now2).1.message = some "Invalid credentials" ∧
    (loginUser pc js (some u) pw now).1.message ≠
      (loginUser pc js (some v) pw2 now2).1.message := by
  simp [loginUser, hl, hnl, hw]

/-- Witness for C3's amended theorem at `lockedUser` (time 0) versus
`freshUser` with a failing password comparison. -/
theorem locked_and_wrong_password_distinguishable_witness :
    (loginUser (fun _ _ => false) (fun _ => "jwt") (some lockedUser) "pw" 0).1.status = 401 ∧
    (loginUser (fun _ _ => false) (fun _ => "jwt") (some lockedUser) "pw" 0).1.success = false ∧
    (loginUser (fun _ _ => false) (fun _ => "jwt") (some lockedUser) "pw" 0).1.message =
      some "Account is locked due to too many failed attempts. Try again later." ∧
    (loginUser (fun _ _ => false) (fun _ => "jwt") (some freshUser) "pw" 0).1.status = 401 ∧
    (loginUser (fun _ _ => false) (fun _ => "jwt") (some freshUser) "pw" 0).1.success = false ∧
    (loginUser (fun _ _ => false) (fun _ => "jwt") (some freshUser) "pw" 0).1.message =
      some "Invalid credentials" ∧
    (loginUser (fun _ _ => false) (fun _ => "jwt") (some lockedUser) "pw" 0).1.message ≠
      (loginUser (fun _ _ => false) (fun _ => "jwt") (some freshUser) "pw" 0).1.message :=
  locked_and_wrong_password_distinguishable (fun _ _ => false) (fun _ => "jwt")
    lockedUser freshUser "pw" "pw" 0 0 (by decide) (by decide) rfl

/-- Helper: a non-empty string has `isEmpty = false`. -/
theorem isEmpty_false_of_ne (s : String) (h : s ≠ "") : s.isEmpty = false := by
  rw [← Bool.not_eq_true]
  intro hh
  exact h ((String.isEmpty_iff s).mp hh)

/-- Helper: a supplied non-empty request string is truthy. -/
theorem strTruthy_some (s : String) (h : s ≠ "") : strTruthy (some s) = true := by
  simp [strTruthy, isEmpty_false_of_ne s h]

/-- C6: when a token is submitted but no pending session secret exists,
or the token does not validate against the pending secret under TOTP
with window 1, `verify2FAToken` fails with a 400 response, returns no
backup codes, and leaves the durable user record (in particular
`twoFactorEnabled`) and the session slot unchanged. -/
theorem enrollment_failure_leaves_record_unchanged
    (tv : String → String → Nat → Bool) (bh : String → String)
    (rand : Nat → String) (session : Option String) (token : String)
    (htok : token ≠ "") (user : User)
    (hfail : session = none ∨ ∃ s, session = some s ∧ tv s token 1 = false) :
    (verify2FAToken tv bh rand session (some token) user).1.status = 400 ∧
    (verify2FAToken tv bh rand session (some token) user).1.success = false ∧
    (verify2FAToken tv bh rand session (some token) user).1.backupCodes = none ∧
    (verify2FAToken tv bh rand session (some token) user).2.1 = user ∧
    (verify2FAToken tv bh rand session (some token) user).2.2 = session ∧
    (user.twoFactorEnabled = false →
      (verify2FAToken tv bh rand session (some token) user).2.1.twoFactorEnabled
        = false) := by
  have htt : strTruthy (some token) = true := strTruthy_some token htok
  rcases hfail with hnone | ⟨s, hsess, hv⟩
  · subst hnone
    simp [verify2FAToken, htt]
  · subst hsess
    simp [verify2FAToken, htt, hv]

/-- Witness for C6: a concrete token that fails every TOTP check against
a concrete pending secret. -/
theorem enrollment_failure_leaves_record_unchanged_witness :
    (verify2FAToken (fun _ _ _ => false) demoHash demoRand (some "SECRET")
      (some "000000") freshUser).1.status = 400 ∧
    (verify2FAToken (fun _ _ _ => false) demoHash demoRand (some "SECRET")
      (some "000000") freshUser).1.success = false ∧
    (verify2FAToken (fun _ _ _ => false) demoHash demoRand (some "SECRET")
      (some "000000") freshUser).1.backupCodes = none ∧
    (verify2FAToken (fun _ _ _ => false) demoHash demoRand (some "SECRET")
      (some "000000") freshUser).2.1 = freshUser ∧
    (verify2FAToken (fun _ _ _ => false) demoHash demoRand (some "SECRET")
      (some "000000") freshUser).2.2 = some "SECRET" ∧
    (freshUser.twoFactorEnabled = false →
      (verify2FAToken (fun _ _ _ => false) demoHash demoRand (some "SECRET")
        (some "000000") freshUser).2.1.twoFactorEnabled = false) :=
  enrollment_failure_leaves_record_unchanged (fun _ _ _ => false) demoHash demoRand
    (some "SECRET") "000000" (by decide) freshUser
    (Or.inr ⟨"SECRET", rfl, rfl⟩)

/-- C7: for a user with a stored secret, `disable2FA` succeeds exactly
when a supplied token validates under TOTP or a supplied password matches
the stored hash; on success it clears `twoFactorEnabled`, the secret and
all backup codes; otherwise the record is unchanged, and when at least
one proof was supplied the failure message is the verification-failed
one. -/
theorem disable2FA_succeeds_iff_proof_of_control
    (tv : String → String → Nat → Bool) (pc : String → String → Bool)
    (token password : Option String) (user : User) (s : String)
    (hs : user.twoFactorSecret = some s) :
    ((disable2FA tv pc token password user).1.success = true ↔
      ((strTruthy token = true ∧ tv s (token.getD "") 1 = true) ∨
       (strTruthy password = true ∧ pc (password.getD "") user.password = true))) ∧
    ((disable2FA tv pc token password user).1.success = true →
      ((disable2FA tv pc token password user).2.twoFactorEnabled = false ∧
       (disable2FA tv pc token password user).2.twoFactorSecret = none ∧
       (disable2FA tv pc token password user).2.twoFactorBackupCodes = [])) ∧
    ((disable2FA tv pc token password user).1.success = false →
      (disable2FA tv pc token password user).2 = user) ∧
    ((strTruthy token = true ∨ strTruthy password = true) →
      (disable2FA tv pc token password user).1.success = false →
      (disable2FA tv pc token password user).1.message =
        some "Verification failed. Please provide either a valid 2FA token or your correct password") := by
  cases ht : strTruthy token <;> cases hp : strTruthy password <;>
    cases htv : tv s (token.getD "") 1 <;>
      cases hpc : pc (password.getD "") user.password <;>
        simp [disable2FA, ht, hp, hs, htv, hpc]

/-- Witness for C7: a wrong password and no token at `backupUser` yield
the verification-failed message and an unchanged record. -/
theorem disable2FA_succeeds_iff_proof_of_control_witness :
    ((disable2FA (fun _ _ _ => true) (fun _ _ => false) none (some "wrongpw")
        backupUser).1.success = true ↔
      ((strTruthy none = true ∧ (fun _ _ _ => true : String → String → Nat → Bool)
          "SECRET" ((none : Option String).getD "") 1 = true) ∨
       (strTruthy (some "wrongpw") = true ∧ (fun _ _ => false : String → String → Bool)
          ((some "wrongpw").getD "") backupUser.password = true))) ∧
    ((disable2FA (fun _ _ _ => true) (fun _ _ => false) none (some "wrongpw")
        backupUser).1.success = true →
      ((disable2FA (fun _ _ _ => true) (fun _ _ => false) none (some "wrongpw")
          backupUser).2.twoFactorEnabled = false ∧
       (disable2FA (fun _ _ _ => true) (fun _ _ => false) none (some "wrongpw")
          backupUser).2.twoFactorSecret = none ∧
       (disable2FA (fun _ _ _ => true) (fun _ _ => false) none (some "wrongpw")
          backupUser).2.twoFactorBackupCodes = [])) ∧
    ((disable2FA (fun _ _ _ => true) (fun _ _ => false) none (some "wrongpw")
        backupUser).1.success = false →
      (disable2FA (fun _ _ _ => true) (fun _ _ => false) none (some "wrongpw")
        backupUser).2 = backupUser) ∧
    ((strTruthy (none : Option String) = true ∨ strTruthy (some "wrongpw") = true) →
      (disable2FA (fun _ _ _ => true) (fun _ _ => false) none (some "wrongpw")
        backupUser).1.success = false →
      (disable2FA (fun _ _ _ => true) (fun _ _ => false) none (some "wrongpw")
        backupUser).1.message =
        some "Verification failed. Please provide either a valid 2FA token or your correct password") :=
  disable2FA_succeeds_iff_proof_of_control (fun _ _ _ => true) (fun _ _ => false)
    none (some "wrongpw") backupUser "SECRET" rfl

/-- C8 (code bug): `generate2FASecret` places the raw base32 secret in
the response body regardless of the deployment configuration; in
particular with `production = true` the secret is NOT suppressed,
against the claim that production deployments suppress it. -/
theorem secret_in_response_regardless_of_production
    (production : Bool) (secret qr uri : String) (session : Option String) :
    (generate2FASecret production secret qr uri session).1.secret = some secret ∧
    (generate2FASecret true secret qr uri session).1.secret = some secret :=
  ⟨rfl, rfl⟩

/-- C9: for every 2FA-enabled user with a non-empty backup-code list,
`verify2FALogin` with any non-empty backup-code string succeeds with a
200 response, a signed JWT, and the FIRST stored entry marked used — the
submitted string is never compared against the stored hashes and the
existing `used` flag of that entry is ignored, because the async
`findIndex` callback yields an always-truthy Promise. -/
theorem any_backup_code_accepted_marks_first_entry
    (tv : String → String → Nat → Bool) (bc : String → String → Bool)
    (js : User → String) (uid code : String) (huid : uid ≠ "")
    (hcode : code ≠ "") (user : User) (hen : user.twoFactorEnabled = true)
    (e : BackupCodeEntry) (rest : List BackupCodeEntry)
    (hcodes : user.twoFactorBackupCodes = e :: rest) (now : Nat) :
    (verify2FALogin tv bc js (some uid) none (some code) (some user) now).1.status
      = 200 ∧
    (verify2FALogin tv bc js (some uid) none (some code) (some user) now).1.success
      = true ∧
    (verify2FALogin tv bc js (some uid) none (some code) (some user) now).1.token
      = some (js { user with
                   twoFactorBackupCodes := { e with used := true } :: rest }) ∧
    (verify2FALogin tv bc js (some uid) none (some code) (some user) now).2
      = some (resetLoginAttempts
          { user with twoFactorBackupCodes := { e with used := true } :: rest }
          now) := by
  have huidt := isEmpty_false_of_ne uid huid
  have hcodet := isEmpty_false_of_ne code hcode
  simp [verify2FALogin, huidt, hcodet, strTruthy, hen, hcodes, findIndexList,
        asyncCallbackPromiseTruthy, markUsed]

/-- Witness for C9: an already-used stored entry hashing a DIFFERENT
plaintext still lets the submitted string NOTACODE through. -/
theorem any_backup_code_accepted_marks_first_entry_witness :
    (verify2FALogin (fun _ _ _ => false) demoCompare (fun _ => "jwt")
      (some "uid") none (some "NOTACODE") (some usedBackupUser) 7).1.status = 200 ∧
    (verify2FALogin (fun _ _ _ => false) demoCompare (fun _ => "jwt")
      (some "uid") none (some "NOTACODE") (some usedBackupUser) 7).1.success = true ∧
    (verify2FALogin (fun _ _ _ => false) demoCompare (fun _ => "jwt")
      (some "uid") none (some "NOTACODE") (some usedBackupUser) 7).1.token
      = some "jwt" ∧
    (verify2FALogin (fun _ _ _ => false) demoCompare (fun _ => "jwt")
      (some "uid") none (some "NOTACODE") (some usedBackupUser) 7).2
      = some (resetLoginAttempts usedBackupUser 7) :=
  any_backup_code_accepted_marks_first_entry (fun _ _ _ => false) demoCompare
    (fun _ => "jwt") "uid" "NOTACODE" (by decide) (by decide) usedBackupUser
    rfl { code := demoHash "AB12CD34", used := true } [] rfl 7

/-- C10: `verify2FALogin` never consults the lockout state: a user whose
`lockUntil` lies in the future still succeeds with a valid TOTP code,
receives a signed JWT, and has `loginAttempts` reset to 0 with
`lockUntil` and `accountLocked` cleared. -/
theorem locked_account_bypasses_lock_via_2fa_login
    (tv : String → String → Nat → Bool) (bc : String → String → Bool)
    (js : User → String) (uid tok : String) (huid : uid ≠ "") (htok : tok ≠ "")
    (user : User) (s : String) (lockT now : Nat)
    (hen : user.twoFactorEnabled = true) (hs : user.twoFactorSecret = some s)
    (hl : user.lockUntil = some lockT) (hfut : now < lockT)
    (hv : tv s tok 1 = true) :
    isLocked user now = true ∧
    (verify2FALogin tv bc js (some uid) (some tok) none (some user) now).1.status
      = 200 ∧
    (verify2FALogin tv bc js (some uid) (some tok) none (some user) now).1.success
      = true ∧
    (verify2FALogin tv bc js (some uid) (some tok) none (some user) now).1.token
      = some (js user) ∧
    (verify2FALogin tv bc js (some uid) (some tok) none (some user) now).2
      = some (resetLoginAttempts user now) ∧
    (resetLoginAttempts user now).loginAttempts = 0 ∧
    (resetLoginAttempts user now).lockUntil = none ∧
    (resetLoginAttempts user now).accountLocked = false := by
  have huidt := isEmpty_false_of_ne uid huid
  have htokt := isEmpty_false_of_ne tok htok
  refine ⟨by simp [isLocked, hl]; omega, ?_⟩
  simp [verify2FALogin, huidt, htokt, strTruthy, hen, hs, hv, resetLoginAttempts]

/-- Witness for C10: a user locked until time 5000 logs in through the
2FA endpoint at time 10 with an accepted TOTP code. -/
theorem locked_account_bypasses_lock_via_2fa_login_witness :
    isLocked lockedBackupUser 10 = true ∧
    (verify2FALogin (fun _ _ _ => true) demoCompare (fun _ => "jwt")
      (some "uid") (some "123456") none (some lockedBackupUser) 10).1.status = 200 ∧
    (verify2FALogin (fun _ _ _ => true) demoCompare (fun _ => "jwt")
      (some "uid") (some "123456") none (some lockedBackupUser) 10).1.success = true ∧
    (verify2FALogin (fun _ _ _ => true) demoCompare (fun _ => "jwt")
      (some "uid") (some "123456") none (some lockedBackupUser) 10).1.token
      = some "jwt" ∧
    (verify2FALogin (fun _ _ _ => true) demoCompare (fun _ => "jwt")
      (some "uid") (some "123456") none (some lockedBackupUser) 10).2
      = some (resetLoginAttempts lockedBackupUser 10) ∧
    (resetLoginAttempts lockedBackupUser 10).loginAttempts = 0 ∧
    (resetLoginAttempts lockedBackupUser 10).lockUntil = none ∧
    (resetLoginAttempts lockedBackupUser 10).accountLocked = false :=
  locked_account_bypasses_lock_via_2fa_login (fun _ _ _ => true) demoCompare
    (fun _ => "jwt") "uid" "123456" (by decide) (by decide) lockedBackupUser
    "SECRET" 5000 10 rfl rfl rfl (by decide) rfl

end TimeCapsule
